import Mathlib

/-!
Verification development for the Botshi stream-tagging and credential-management
bot.  The definitions below are shallow embeddings of the TypeScript sources:

* `src/twitch-api.ts` — stream session lifecycle, tag recording, time-offset
  calculation and the deep-link time format;
* `src/commands/tagstwitch.ts` and `src/commands/tagssrt.ts` — the two export
  commands driven by a vod lookup;
* the `TwitchApiClient` module — encrypted token storage (AES-256-GCM),
  startup token initialization and the refresh scheduler.

JavaScript timestamps and durations are modelled as `Int` (milliseconds);
`Math.floor(a / b)` is `Int.fdiv` and the JavaScript `%` operator (sign of the
dividend) is `Int.tmod`.  Byte strings handled by the cipher are `List Nat`.
-/

namespace Botshi

/-! ### Time-offset calculator (`src/twitch-api.ts`) -/

/-- `getTimeDifference(date1, date2, delay)` from `src/twitch-api.ts`:
`date1.getTime() - date2.getTime() - delay * 1000`, in milliseconds. -/
def getTimeDifference (date1 date2 delay : Int) : Int :=
  date1 - date2 - delay * 1000

/-- `Math.floor(timeDiffMs / 3600000)` — the hours component used by both
`formatRelativeTime` and `formatRelativeTimeWithPadding` (the two source
functions compute it with the same expression). -/
def jsHours (timeDiffMs : Int) : Int := Int.fdiv timeDiffMs 3600000

/-- `Math.floor((timeDiffMs % 3600000) / 60000)` — the minutes component. -/
def jsMinutes (timeDiffMs : Int) : Int := Int.fdiv (Int.tmod timeDiffMs 3600000) 60000

/-- `Math.floor((timeDiffMs % 60000) / 1000)` — the seconds component. -/
def jsSeconds (timeDiffMs : Int) : Int := Int.fdiv (Int.tmod timeDiffMs 60000) 1000

/-- `formatRelativeTime` from `src/twitch-api.ts`: unpadded `HhMmSs`. -/
def formatRelativeTime (timeDiffMs : Int) : String :=
  toString (jsHours timeDiffMs) ++ "h" ++ toString (jsMinutes timeDiffMs) ++ "m"
    ++ toString (jsSeconds timeDiffMs) ++ "s"

/-- JavaScript `s.padStart(2, "0")`. -/
def padStart2 (s : String) : String :=
  if s.length < 2 then String.mk (List.replicate (2 - s.length) '0') ++ s else s

/-- `formatRelativeTimeWithPadding` from `src/commands/tagssrt.ts`:
zero-padded `HH:MM:SS`. -/
def formatRelativeTimeWithPadding (timeDiffMs : Int) : String :=
  padStart2 (toString (jsHours timeDiffMs)) ++ ":"
    ++ padStart2 (toString (jsMinutes timeDiffMs)) ++ ":"
    ++ padStart2 (toString (jsSeconds timeDiffMs))

/-- Claim C4: `getTimeDifference` equals `eventTime - sessionStart -
delaySeconds*1000` with no clamping to zero (an event before the compensated
start yields a negative duration), satisfies `elapsed(start, start, 0) = 0`,
and is strictly decreasing in the delay. -/
theorem getTimeDifference_linear_and_monotone (t s d d1 d2 : Int) (h : d1 < d2) :
    getTimeDifference t s d = t - s - d * 1000 ∧
    getTimeDifference s s 0 = 0 ∧
    getTimeDifference t s d2 < getTimeDifference t s d1 ∧
    (t - s - d * 1000 < 0 → getTimeDifference t s d < 0) := by
  unfold getTimeDifference
  omega

/-- Witness for C4 at concrete inputs. -/
theorem getTimeDifference_linear_and_monotone_check :
    getTimeDifference 5 3 7 = 5 - 3 - 7 * 1000 ∧
    getTimeDifference 3 3 0 = 0 ∧
    getTimeDifference 5 3 2 < getTimeDifference 5 3 1 ∧
    ((5 : Int) - 3 - 7 * 1000 < 0 → getTimeDifference 5 3 7 < 0) :=
  getTimeDifference_linear_and_monotone 5 3 7 1 2 (by decide)

/-- Claim C7: the deep-link renderer prints unpadded `HhMmSs`, the subtitle
renderer zero-padded `HH:MM:SS`; both read the same hours/minutes/seconds
components, whose total second count is `floor(ms / 1000)` for nonnegative
durations; the spec scenario (start `T0`, delay 15 s, tag at `T0 + 100 s`)
renders as `"0h1m25s"` and `"00:01:25"`. -/
theorem formatRelativeTime_agreement (ms t0 : Int) (h : 0 ≤ ms) :
    jsHours ms * 3600 + jsMinutes ms * 60 + jsSeconds ms = Int.fdiv ms 1000 ∧
    getTimeDifference (t0 + 100000) t0 15 = 85000 ∧
    formatRelativeTime (getTimeDifference (t0 + 100000) t0 15) = "0h1m25s" ∧
    formatRelativeTimeWithPadding (getTimeDifference (t0 + 100000) t0 15) = "00:01:25" := by
  have hd : getTimeDifference (t0 + 100000) t0 15 = 85000 := by
    unfold getTimeDifference; omega
  refine ⟨?_, hd, by rw [hd]; decide, by rw [hd]; decide⟩
  unfold jsHours jsMinutes jsSeconds
  rw [Int.fdiv_eq_ediv _ (by norm_num), Int.fdiv_eq_ediv _ (by norm_num),
      Int.fdiv_eq_ediv _ (by norm_num), Int.fdiv_eq_ediv _ (by norm_num),
      Int.tmod_eq_emod h (by norm_num), Int.tmod_eq_emod h (by norm_num)]
  omega

/-- Witness for C7 at `ms = 85000`, `t0 = 0`. -/
theorem formatRelativeTime_agreement_check :
    jsHours 85000 * 3600 + jsMinutes 85000 * 60 + jsSeconds 85000 = Int.fdiv 85000 1000 ∧
    getTimeDifference (0 + 100000) 0 15 = 85000 ∧
    formatRelativeTime (getTimeDifference (0 + 100000) 0 15) = "0h1m25s" ∧
    formatRelativeTimeWithPadding (getTimeDifference (0 + 100000) 0 15) = "00:01:25" :=
  formatRelativeTime_agreement 85000 0 (by decide)

/-! ### Sessions and tags (`src/twitch-api.ts`) -/

/-- The `StreamTag` interface.  `relativeTimestamp` is optional because records
loaded from a durable JSON file may predate the field; tags created in memory
always carry it. -/
structure StreamTag where
  timestamp : Int
  relativeTime : String
  relativeTimestamp : Option Int
  moderator : String
  message : String
deriving DecidableEq, Repr

/-- The `Stream` class from `src/twitch-api.ts`. -/
structure Stream where
  id : String
  startTime : Int
  delay : Int
  vodDelay : Int
  tags : List StreamTag
deriving DecidableEq, Repr

/-- The `Stream` class constructor.  Note the source assigns
`this.vodDelay = delay` (not the `vodDelay` argument), which this embedding
reproduces. -/
def Stream.make (id : String) (startTime : Int) (delay vodDelay : Int)
    (tags : List StreamTag) : Stream :=
  { id := id, startTime := startTime, delay := delay, vodDelay := delay, tags := tags }

/-- `getStoredStreamOrNew(id, startDate)`: return the stored stream when the
durable record exists, otherwise a fresh `Stream` with the process-wide
`globalDelay`.  The durable lookup result is passed in as `stored`. -/
def getStoredStreamOrNew (id : String) (startDate : Int) (globalDelay : Int)
    (stored : Option Stream) : Stream :=
  match stored with
  | some s => s
  | none => Stream.make id startDate globalDelay 0 []

/-- The `onStreamOnline` handler in `setupEventSubscriptions`: it constructs a
fresh `Stream` from the event's id and start date with the process-wide
`globalDelay` and an empty tag list.  The durable record for the event's id
(`stored`) is available on disk but the handler never consults it. -/
def onStreamOnlineHandler (eventId : String) (eventStart : Int) (globalDelay : Int)
    (stored : Option Stream) : Stream :=
  Stream.make eventId eventStart globalDelay 0 []

/-- The `onStreamOffline` handler: `this.stream = null`. -/
def onStreamOfflineHandler (_current : Option Stream) : Option Stream := none

/-- A concrete tag used to exhibit a stored session record. -/
def sampleTag : StreamTag :=
  { timestamp := 7000, relativeTime := "0h0m7s", relativeTimestamp := some 7000,
    moderator := "alice", message := "clip this" }

/-- A concrete durable session record: id "123", start time 5, one tag. -/
def sampleStoredStream : Stream := Stream.make "123" 5 10 0 [sampleTag]

/-- Counterexample to claim C1: a durable record for the new session id exists
(`sampleStoredStream`, carrying one tag and start time 5), yet the went-live
handler returns a session with an empty tag list and the event's start time —
it does not resume the stored record. -/
theorem onStreamOnlineHandler_drops_stored_record :
    sampleStoredStream.tags ≠ [] ∧
    sampleStoredStream.startTime = 5 ∧
    (onStreamOnlineHandler "123" 100 10 (some sampleStoredStream)).tags = [] ∧
    (onStreamOnlineHandler "123" 100 10 (some sampleStoredStream)).startTime = 100 := by
  decide

/-- Claim C1 (amended): the went-live handler always constructs a fresh session
from the event's start time, the process-wide default delay and an empty tag
list, ignoring any durable record; the look-up-then-resume behaviour lives in
`getStoredStreamOrNew`, which is invoked only during process initialization
when a stream is already live. -/
theorem onStreamOnlineHandler_always_fresh (id : String) (start delay : Int)
    (stored : Option Stream) (s : Stream) :
    onStreamOnlineHandler id start delay stored = Stream.make id start delay 0 [] ∧
    (onStreamOnlineHandler id start delay stored).tags = [] ∧
    getStoredStreamOrNew id start delay (some s) = s ∧
    getStoredStreamOrNew id start delay none = Stream.make id start delay 0 [] :=
  ⟨rfl, rfl, rfl, rfl⟩

/-! ### The `tag` chat command (`createBotCommand('tag', ...)`) -/

/-- Reply sent by the `tag` command handler: the no-stream error
(`"Error: No hay stream"`) or the confirmation carrying the rendered offset. -/
inductive TagReply where
  | noStream
  | created (relativeTime : String)
deriving DecidableEq, Repr

/-- Observable outcome of one `tag` command dispatch: the in-memory session
afterwards, the reply, whether `saveStream` was invoked, and the durable
record content after the flush attempt (`none` when the write did not
happen). -/
structure TagCommandOutcome where
  stream : Option Stream
  reply : TagReply
  flushAttempted : Bool
  durableWrite : Option Stream
deriving DecidableEq, Repr

/-- The `tag` command handler.  With no active stream it replies with the
error and changes nothing.  Otherwise it computes the offset with
`getTimeDifference(now, stream.startTime, globalDelay)`, renders it, appends
the tag in memory and fires `saveStream`; `saveStream` swallows write failures
(`flushOk = false` only affects the durable record, never the in-memory
session). -/
def tagCommandHandler (stream : Option Stream) (now : Int) (globalDelay : Int)
    (moderator text : String) (flushOk : Bool) : TagCommandOutcome :=
  match stream with
  | none =>
      { stream := none, reply := .noStream, flushAttempted := false, durableWrite := none }
  | some s =>
      let timeDiff := getTimeDifference now s.startTime globalDelay
      let relativeTime := formatRelativeTime timeDiff
      let tag : StreamTag :=
        { timestamp := now, relativeTime := relativeTime,
          relativeTimestamp := some timeDiff, moderator := moderator, message := text }
      let updated : Stream := { s with tags := s.tags ++ [tag] }
      { stream := some updated, reply := .created relativeTime, flushAttempted := true,
        durableWrite := if flushOk then some updated else none }

/-- Claim C5: with no active session the `tag` command replies with the
no-active-session error and makes no state change (and attempts no flush);
with an active session it appends exactly one tag whose offset is computed by
`getTimeDifference` from the current time, the session start time and the
configured delay, triggers a durability flush, and the in-memory result and
reply are independent of whether the flush succeeds. -/
theorem tagCommandHandler_spec (now globalDelay : Int) (moderator text : String)
    (s : Stream) (b1 b2 : Bool) :
    tagCommandHandler none now globalDelay moderator text b1 =
      { stream := none, reply := .noStream, flushAttempted := false, durableWrite := none } ∧
    (tagCommandHandler (some s) now globalDelay moderator text b1).stream =
      some { s with tags := s.tags ++
        [{ timestamp := now,
           relativeTime := formatRelativeTime (getTimeDifference now s.startTime globalDelay),
           relativeTimestamp := some (getTimeDifference now s.startTime globalDelay),
           moderator := moderator, message := text }] } ∧
    (tagCommandHandler (some s) now globalDelay moderator text b1).reply =
      .created (formatRelativeTime (getTimeDifference now s.startTime globalDelay)) ∧
    (tagCommandHandler (some s) now globalDelay moderator text b1).flushAttempted = true ∧
    (tagCommandHandler (some s) now globalDelay moderator text b1).stream =
      (tagCommandHandler (some s) now globalDelay moderator text b2).stream ∧
    (tagCommandHandler (some s) now globalDelay moderator text b1).reply =
      (tagCommandHandler (some s) now globalDelay moderator text b2).reply :=
  ⟨rfl, rfl, rfl, rfl, rfl, rfl⟩

/-! ### Export commands (`src/commands/tagstwitch.ts`, `src/commands/tagssrt.ts`) -/

/-- The fields of a `HelixVideo` consulted by the export commands. -/
structure Vod where
  id : String
  streamId : Option String
  url : String
deriving DecidableEq, Repr

/-- Replies produced by the two export commands.  `vodNotFound` is
`"Ese vod no existe"`, `noStreamForVod` is `"Ese vod no pertenece a un
stream."`, `noTagsFound` is `"No se encontraron tags para ese vod."` (sent
when `loadStream` returns nothing), `emptyStreamTags` is `"El stream no tiene
tags."` (sent by `tagssrt` only), `tagList` carries the advertised count and
formatted lines, `srtFile` the subtitle cues. -/
inductive ExportReply where
  | vodNotFound
  | noStreamForVod
  | noTagsFound
  | emptyStreamTags
  | tagList (count : Nat) (lines : List String)
  | srtFile (cues : List String)
deriving DecidableEq, Repr

/-- One line of the deep-link export:
`` "{n} - [`{relativeTime}`](<{url}?t={relativeTime}>) : {message}\n" ``. -/
def twitchTagLine (url : String) (i : Nat) (tag : StreamTag) : String :=
  toString (i + 1) ++ " - [`" ++ tag.relativeTime ++ "`](<" ++ url ++ "?t="
    ++ tag.relativeTime ++ ">) : " ++ tag.message ++ "\n"

/-- `execute` of `tagstwitch.ts`.  `vod` is the result of the external vod
lookup and `stored` the durable session record for the vod's stream id.
There is no zero-tags check: a stored record with no tags is rendered as an
empty list. -/
def tagstwitchExecute (vod : Option Vod) (stored : Option Stream) : ExportReply :=
  match vod with
  | none => .vodNotFound
  | some v =>
    match v.streamId with
    | none => .noStreamForVod
    | some _ =>
      match stored with
      | none => .noTagsFound
      | some s => .tagList s.tags.length (s.tags.enum.map fun p => twitchTagLine v.url p.1 p.2)

/-- Offset used by the subtitle export for one loaded tag: the JavaScript
test `!tag.relativeTimestamp` is true both when the field is missing and when
it is `0`, and in both cases the offset is recomputed with delay `0`. -/
def backfillOffset (startTime : Int) (tag : StreamTag) : Int :=
  match tag.relativeTimestamp with
  | none => getTimeDifference tag.timestamp startTime 0
  | some r => if r = 0 then getTimeDifference tag.timestamp startTime 0 else r

/-- One subtitle cue block:
`"{n}\n{HH:MM:SS},000 --> {HH:MM:SS},000\n{message}\n\n"` with a fixed
15-second display duration. -/
def srtCue (startTime : Int) (i : Nat) (tag : StreamTag) : String :=
  let off := backfillOffset startTime tag
  toString (i + 1) ++ "\n" ++ formatRelativeTimeWithPadding off ++ ",000 --> "
    ++ formatRelativeTimeWithPadding (off + 15000) ++ ",000\n" ++ tag.message ++ "\n\n"

/-- `execute` of `tagssrt.ts`: same lookup chain as `tagstwitch.ts`, plus an
explicit zero-tags check before building the cues. -/
def tagssrtExecute (vod : Option Vod) (stored : Option Stream) : ExportReply :=
  match vod with
  | none => .vodNotFound
  | some v =>
    match v.streamId with
    | none => .noStreamForVod
    | some _ =>
      match stored with
      | none => .noTagsFound
      | some s =>
        if s.tags.length = 0 then .emptyStreamTags
        else .srtFile (s.tags.enum.map fun p => srtCue s.startTime p.1 p.2)

/-- A concrete vod whose recording resolves to stream id "123". -/
def sampleVod : Vod := { id := "v1", streamId := some "123", url := "https://e.x/v1" }

/-- A concrete stored session record with zero tags. -/
def emptyTagStream : Stream := Stream.make "123" 5 10 0 []

/-- Counterexample to claim C6: for a vod whose session record exists with
zero tags, the deep-link export does not reply with the no-tags message — it
replies with the tag list header announcing 0 tags and an empty list. -/
theorem tagstwitch_empty_record_not_noTagsFound :
    emptyTagStream.tags = [] ∧
    tagstwitchExecute (some sampleVod) (some emptyTagStream) = .tagList 0 [] ∧
    tagstwitchExecute (some sampleVod) (some emptyTagStream) ≠ .noTagsFound := by
  decide

/-- Claim C6 (amended): when the session record is absent both exports reply
with the no-tags-found message; when the record exists with zero tags only
the subtitle export replies with its no-tags message, while the deep-link
export replies with a zero-count tag list. -/
theorem export_zero_tags_behaviour (v : Vod) (sid : String) (s : Stream)
    (hsid : v.streamId = some sid) (hempty : s.tags = []) :
    tagstwitchExecute (some v) none = .noTagsFound ∧
    tagssrtExecute (some v) none = .noTagsFound ∧
    tagssrtExecute (some v) (some s) = .emptyStreamTags ∧
    tagstwitchExecute (some v) (some s) = .tagList 0 [] := by
  simp [tagstwitchExecute, tagssrtExecute, hsid, hempty]

/-- Witness for C6 (amended) at `sampleVod` and `emptyTagStream`. -/
theorem export_zero_tags_behaviour_check :
    tagstwitchExecute (some sampleVod) none = .noTagsFound ∧
    tagssrtExecute (some sampleVod) none = .noTagsFound ∧
    tagssrtExecute (some sampleVod) (some emptyTagStream) = .emptyStreamTags ∧
    tagstwitchExecute (some sampleVod) (some emptyTagStream) = .tagList 0 [] :=
  export_zero_tags_behaviour sampleVod "123" emptyTagStream rfl rfl

/-- A tag whose cached offset is exactly `0`. -/
def zeroOffsetTag : StreamTag :=
  { timestamp := 5000, relativeTime := "0h0m0s", relativeTimestamp := some 0,
    moderator := "alice", message := "uno" }

/-- Counterexample to claim C10: a tag carrying the cached offset `0` does not
keep it — the subtitle export recomputes it (here to 5000 ms) because the
JavaScript falsiness test treats `0` like a missing field. -/
theorem backfillOffset_replaces_cached_zero :
    zeroOffsetTag.relativeTimestamp = some 0 ∧
    backfillOffset 0 zeroOffsetTag = 5000 ∧
    (5000 : Int) ≠ 0 := by
  decide

/-- Claim C10 (amended): during subtitle export a tag's offset is recomputed
with delay 0 exactly when the cached offset is missing or equals 0; any
nonzero cached offset is kept unchanged. -/
theorem backfillOffset_spec (startTime : Int) (t : StreamTag) (r : Int) :
    (t.relativeTimestamp = none →
      backfillOffset startTime t = getTimeDifference t.timestamp startTime 0) ∧
    (t.relativeTimestamp = some 0 →
      backfillOffset startTime t = getTimeDifference t.timestamp startTime 0) ∧
    (t.relativeTimestamp = some r → r ≠ 0 → backfillOffset startTime t = r) := by
  unfold backfillOffset
  refine ⟨fun h => ?_, fun h => ?_, fun h hr => ?_⟩
  · rw [h]
  · rw [h]; simp
  · rw [h]; simp [hr]

/-- Witness for C10 (amended): a nonzero cached offset is kept, a zero cached
offset is recomputed. -/
theorem backfillOffset_spec_check :
    backfillOffset 0 sampleTag = 7000 ∧
    backfillOffset 0 zeroOffsetTag = getTimeDifference 5000 0 0 :=
  ⟨(backfillOffset_spec 0 sampleTag 7000).2.2 rfl (by decide),
   (backfillOffset_spec 0 zeroOffsetTag 0).2.1 rfl⟩

/-! ### Credential store (`TwitchApiClient` module)

`TokenEncryption` uses Node's `aes-256-gcm` through `createCipheriv` /
`createDecipheriv`.  The AES-GCM primitive itself is platform code, so it is
modelled here as an executable authenticated stream cipher with the interface
properties the repository relies on: encryption XORs the plaintext with a
keystream determined by the key and the IV, and appends a 16-byte
authentication tag bound to the key, the IV and the ciphertext; decryption
splits off the trailing 16 tag bytes exactly as the source's
`encrypted.slice(-32)` does on the hex encoding, recomputes the tag for the
supplied IV and fails (`none`, the thrown exception) on mismatch.  Bytes are
`Nat`s; the hex encoding is elided (16 bytes = 32 hex characters). -/

/-- Keystream byte `i` of the modelled cipher core for a given key and IV. -/
def gcmKeystreamByte (key iv i : Nat) : Nat :=
  (key * 131 + iv * 257 + i * 17 + 89) % 256

/-- XOR the byte list against the keystream starting at position `i`
(the CTR-mode core of GCM; it is its own inverse). -/
def ctrApply (key iv : Nat) : Nat → List Nat → List Nat
  | _, [] => []
  | i, b :: rest => (b ^^^ gcmKeystreamByte key iv i) :: ctrApply key iv (i + 1) rest

/-- Fold of the ciphertext bytes feeding the authentication tag. -/
def ctFold (ct : List Nat) : Nat :=
  ct.foldl (fun a b => (a * 31 + b) % 1000003) 7

/-- The 16-byte authentication tag, bound to key, IV and ciphertext. -/
def gcmTagBytes (key iv : Nat) (ct : List Nat) : List Nat :=
  (List.range 16).map fun j => (key * 37 + iv * 101 + j * 13 + ctFold ct) % 256

/-- Result shape of `TokenEncryption.encrypt`: the ciphertext with the auth
tag appended, and the IV that was drawn for the call. -/
structure EncryptResult where
  encrypted : List Nat
  iv : Nat
deriving DecidableEq, Repr

/-- `TokenEncryption.encrypt(text)`: a fresh random IV is drawn per call
(passed here as `iv`), the plaintext is enciphered, and the auth tag is
appended to the ciphertext. -/
def tokenEncrypt (key iv : Nat) (text : List Nat) : EncryptResult :=
  let ct := ctrApply key iv 0 text
  { encrypted := ct ++ gcmTagBytes key iv ct, iv := iv }

/-- `TokenEncryption.decrypt(encrypted, iv)`: split the trailing 16 tag bytes
from the blob, recompute the tag under the supplied IV, fail on mismatch
(`none` models the thrown error), otherwise decipher. -/
def tokenDecrypt (key : Nat) (encrypted : List Nat) (iv : Nat) : Option (List Nat) :=
  let ct := encrypted.take (encrypted.length - 16)
  let tag := encrypted.drop (encrypted.length - 16)
  if tag = gcmTagBytes key iv ct then some (ctrApply key iv 0 ct) else none

lemma ctrApply_ctrApply (key iv : Nat) (i : Nat) (l : List Nat) :
    ctrApply key iv i (ctrApply key iv i l) = l := by
  induction l generalizing i with
  | nil => rfl
  | cons b rest ih =>
      simp [ctrApply, Nat.xor_assoc, ih]

lemma ctrApply_length (key iv i : Nat) (l : List Nat) :
    (ctrApply key iv i l).length = l.length := by
  induction l generalizing i with
  | nil => rfl
  | cons b rest ih => simp [ctrApply, ih]

lemma gcmTagBytes_length (key iv : Nat) (ct : List Nat) :
    (gcmTagBytes key iv ct).length = 16 := by
  simp [gcmTagBytes]

lemma tokenEncrypt_length (key iv : Nat) (text : List Nat) :
    (tokenEncrypt key iv text).encrypted.length = text.length + 16 := by
  simp [tokenEncrypt, ctrApply_length, gcmTagBytes_length]

/-- Claim C8: for every byte string (including the empty string and strings
containing null bytes), decrypting the output of `encrypt` with its
accompanying IV recovers the plaintext exactly. -/
theorem tokenEncrypt_tokenDecrypt_roundtrip (key iv : Nat) (text : List Nat) :
    tokenDecrypt key (tokenEncrypt key iv text).encrypted (tokenEncrypt key iv text).iv
      = some text := by
  unfold tokenEncrypt tokenDecrypt
  have hlen : (ctrApply key iv 0 text ++ gcmTagBytes key iv (ctrApply key iv 0 text)).length - 16
      = (ctrApply key iv 0 text).length := by
    simp [gcmTagBytes_length]
  rw [hlen, List.take_left' rfl, List.drop_left' rfl, if_pos rfl, ctrApply_ctrApply]

/-- The encrypted credential record (`EncryptedTokens`) persisted by the
token storage: a single IV field, the two encrypted token blobs and the
expiry timestamp. -/
structure EncryptedTokens where
  iv : Nat
  accessToken : List Nat
  refreshToken : List Nat
  expiresAt : Int
deriving DecidableEq, Repr

/-- `TwitchApiClient.saveTokens`: draws a fresh random 16-byte IV (`ivTop`)
that is stored in the record's `iv` field, then calls `encrypt` twice — each
call drawing its own internal IV (`ivAccess`, `ivRefresh`) that the record
does not retain — and stores `expiresAt = Date.now() + expiresIn * 1000`. -/
def apiSaveTokens (key ivTop ivAccess ivRefresh : Nat) (accessToken refreshToken : List Nat)
    (expiresIn now : Int) : EncryptedTokens :=
  { iv := ivTop,
    accessToken := (tokenEncrypt key ivAccess accessToken).encrypted,
    refreshToken := (tokenEncrypt key ivRefresh refreshToken).encrypted,
    expiresAt := now + expiresIn * 1000 }

/-- The `AccessToken` object handled by `TwitchBot` in `src/twitch-api.ts`. -/
structure AccessTokenData where
  accessToken : List Nat
  refreshToken : List Nat
  expiresIn : Int
deriving DecidableEq, Repr

/-- `TwitchBot.saveTokens` in `src/twitch-api.ts`: writes
`JSON.stringify(tokenData)` to `tokens.json` — the durable record is the token
data verbatim, with no encryption step. -/
def botSaveTokens (tokenData : AccessTokenData) : AccessTokenData := tokenData

/-- A concrete plaintext token pair. -/
def samplePlainTokens : AccessTokenData :=
  { accessToken := [1, 2, 3], refreshToken := [4, 5, 6], expiresIn := 3600 }

/-- Counterexample to claim C2: the durable record written by the
`TwitchBot.saveTokens` path (used for the initial OAuth save and by the
`onRefresh` callback) contains the plaintext token pair verbatim; its access
field is 3 bytes long, while every output of the authenticated cipher is at
least 16 bytes (`tokenEncrypt_length`), so it is not ciphertext. -/
theorem botSaveTokens_stores_plaintext :
    (botSaveTokens samplePlainTokens).accessToken = samplePlainTokens.accessToken ∧
    (botSaveTokens samplePlainTokens).refreshToken = samplePlainTokens.refreshToken ∧
    (botSaveTokens samplePlainTokens).accessToken.length = 3 := by
  decide

/-- Claim C2 (amended): every durable record written through the encrypted
store (`TwitchApiClient.saveTokens`, covering refresh and key rotation)
contains only ciphertext produced by the authenticated cipher — each stored
token field is an `encrypt` output and never equals the plaintext; the
separate `TwitchBot.saveTokens` path persists the pair in plaintext. -/
theorem apiSaveTokens_only_ciphertext (key ivTop ivAccess ivRefresh : Nat)
    (a r : List Nat) (expiresIn now : Int) :
    (apiSaveTokens key ivTop ivAccess ivRefresh a r expiresIn now).accessToken
      = (tokenEncrypt key ivAccess a).encrypted ∧
    (apiSaveTokens key ivTop ivAccess ivRefresh a r expiresIn now).refreshToken
      = (tokenEncrypt key ivRefresh r).encrypted ∧
    (apiSaveTokens key ivTop ivAccess ivRefresh a r expiresIn now).accessToken.length
      = a.length + 16 ∧
    (apiSaveTokens key ivTop ivAccess ivRefresh a r expiresIn now).refreshToken.length
      = r.length + 16 ∧
    (apiSaveTokens key ivTop ivAccess ivRefresh a r expiresIn now).accessToken ≠ a ∧
    (apiSaveTokens key ivTop ivAccess ivRefresh a r expiresIn now).refreshToken ≠ r := by
  refine ⟨rfl, rfl, tokenEncrypt_length .., tokenEncrypt_length .., ?_, ?_⟩
  · intro h
    have := congrArg List.length h
    rw [show (apiSaveTokens key ivTop ivAccess ivRefresh a r expiresIn now).accessToken
        = (tokenEncrypt key ivAccess a).encrypted from rfl, tokenEncrypt_length] at this
    omega
  · intro h
    have := congrArg List.length h
    rw [show (apiSaveTokens key ivTop ivAccess ivRefresh a r expiresIn now).refreshToken
        = (tokenEncrypt key ivRefresh r).encrypted from rfl, tokenEncrypt_length] at this
    omega

/-- Outcome of `TwitchApiClient.initializeTokens` (the startup path): no
stored record, successful adoption of the decrypted pair, an immediate
refresh because the record is expired, or the catch-all fallback to the
externally supplied config tokens after a decryption failure. -/
inductive InitOutcome where
  | noStoredRecord
  | adopted (accessToken refreshToken : List Nat)
  | refreshTriggered
  | fallbackToConfig
deriving DecidableEq, Repr

/-- `TwitchApiClient.initializeTokens`: load the stored record; decrypt both
token blobs with the record's single `iv` field; if decryption succeeds adopt
the pair when `Date.now() < expiresAt`, else refresh; a decryption error is
caught and the config tokens are kept. -/
def initTokens (key : Nat) (stored : Option EncryptedTokens) (now : Int) : InitOutcome :=
  match stored with
  | none => .noStoredRecord
  | some st =>
    match tokenDecrypt key st.accessToken st.iv with
    | none => .fallbackToConfig
    | some a =>
      match tokenDecrypt key st.refreshToken st.iv with
      | none => .fallbackToConfig
      | some r =>
        if now < st.expiresAt then .adopted a r else .refreshTriggered

/-- Claim C3 is a code bug: `saveTokens` stores a fresh random IV in the
record while each `encrypt` call used its own internal IV, so on startup
`initializeTokens` decrypts with an IV that never matches, authentication
fails, and the saved pair is not adopted — the process falls back to the
config tokens.  With distinct IVs (the generic case for random 16-byte IVs)
the round trip fails; only in the degenerate case where all three IVs
coincide does the intended adoption happen. -/
theorem initTokens_roundtrip_fails :
    initTokens 1 (some (apiSaveTokens 1 0 1 2 [10] [20] 3600 0)) 5
      = .fallbackToConfig ∧
    initTokens 1 (some (apiSaveTokens 1 1 1 1 [10] [20] 3600 0)) 5
      = .adopted [10] [20] := by
  decide

/-- The refresh-token exchange response JSON. -/
structure TokenResponse where
  access_token : List Nat
  refresh_token : List Nat
  expires_in : Int
deriving DecidableEq, Repr

/-- The in-memory credential state touched by `refreshToken`. -/
structure RefreshState where
  currentToken : List Nat
  configRefreshToken : List Nat
deriving DecidableEq, Repr

/-- `TwitchApiClient.refreshToken`, observed through its state update and the
interval it hands to `scheduleTokenRefresh`: on a successful exchange it
adopts the new pair and schedules the next refresh in
`(expires_in - 300) * 1000` ms; on failure it leaves the state unchanged and
schedules a retry in a fixed 60000 ms. -/
def refreshTokenStep (st : RefreshState) (response : Option TokenResponse) :
    RefreshState × Int :=
  match response with
  | some d =>
      ({ currentToken := d.access_token, configRefreshToken := d.refresh_token },
       (d.expires_in - 300) * 1000)
  | none => (st, 60000)

/-- Claim C9: after a successful refresh returning `expires_in = E` the next
refresh is scheduled `(E - 300)` seconds from now (3300 s for `E = 3600`,
not 3600 s); after a failure the retry interval is the fixed 60 s, independent
of any expiry value and of the state, which is left unchanged. -/
theorem refreshTokenStep_scheduling (st st' : RefreshState) (d : TokenResponse) :
    (refreshTokenStep st (some d)).2 = (d.expires_in - 300) * 1000 ∧
    (refreshTokenStep st (some { d with expires_in := 3600 })).2 = 3300000 ∧
    (refreshTokenStep st (some d)).1
      = { currentToken := d.access_token, configRefreshToken := d.refresh_token } ∧
    (refreshTokenStep st none).2 = 60000 ∧
    (refreshTokenStep st none).1 = st ∧
    (refreshTokenStep st none).2 = (refreshTokenStep st' none).2 := by
  refine ⟨rfl, by norm_num [refreshTokenStep], rfl, rfl, rfl, rfl⟩

end Botshi
